import Mathlib

/-!
Shallow embedding of the CRM front-end logic found in `static/js/script.js`
(the authoritative, merged version of the script; `unnamed/part_000` is an
earlier variant of the same file).  Pure string manipulation is embedded as
Lean functions on `String`/`List Char`; the DOM slots a handler writes are
passed in and returned explicitly; one `fetch` call together with reading its
body as JSON is summarised by a `FetchOutcome` value; a JavaScript exception
that escapes an event handler is an `Except.error`, while a handler whose
`try/catch` absorbs every throw returns `Except.ok` of its observable effect.
-/

namespace CRM

/-- Expansion of a single character under `escapeHTML`.  The JS body is
`String(str).replace(/[&<>"']/g, m => ({...})[m])`: the regex character class
matches one character at a time, so the whole function is the concatenation of
a per-character expansion.  The five mapped characters come from the object
literal in the source; every other character is left as is. -/
def escChar (c : Char) : List Char :=
  if c = '&' then ['&', 'a', 'm', 'p', ';']
  else if c = '<' then ['&', 'l', 't', ';']
  else if c = '>' then ['&', 'g', 't', ';']
  else if c = '"' then ['&', 'q', 'u', 'o', 't', ';']
  else if c = '\x27' then ['&', '#', '3', '9', ';']
  else [c]

/-- `escapeHTML` from `script.js` lines 27-37: per-character entity expansion
over the whole string.  (The `str = ''` default parameter and the `String(...)`
coercion are handled at call sites: an absent field is defaulted to the empty
string before the call.) -/
def escapeHTML (s : String) : String :=
  ⟨s.data.flatMap escChar⟩

/-- The raw characters that must never survive escaping (the claim leaves
`&` out, since the produced entities themselves contain `&`). -/
def rawMarkupChars : List Char := ['<', '>', '"', '\x27']

/-- Replacement of `&` alone by its entity, leaving all other characters
unchanged: what a second application of `escapeHTML` does to an
already-escaped string. -/
def ampEscChar (c : Char) : List Char :=
  if c = '&' then ['&', 'a', 'm', 'p', ';'] else [c]

/-- String-level version of `ampEscChar`. -/
def ampEscape (s : String) : String :=
  ⟨s.data.flatMap ampEscChar⟩

lemma escChar_no_raw (a : Char) : ∀ c ∈ escChar a, c ∉ rawMarkupChars := by
  intro c hc
  unfold escChar at hc
  split at hc
  · simp only [List.mem_cons, List.not_mem_nil, or_false] at hc
    rcases hc with rfl | rfl | rfl | rfl | rfl <;> decide
  · split at hc
    · simp only [List.mem_cons, List.not_mem_nil, or_false] at hc
      rcases hc with rfl | rfl | rfl | rfl <;> decide
    · split at hc
      · simp only [List.mem_cons, List.not_mem_nil, or_false] at hc
        rcases hc with rfl | rfl | rfl | rfl <;> decide
      · split at hc
        · simp only [List.mem_cons, List.not_mem_nil, or_false] at hc
          rcases hc with rfl | rfl | rfl | rfl | rfl | rfl <;> decide
        · split at hc
          · simp only [List.mem_cons, List.not_mem_nil, or_false] at hc
            rcases hc with rfl | rfl | rfl | rfl | rfl <;> decide
          · simp only [List.mem_singleton] at hc
            subst hc
            simp_all [rawMarkupChars]

lemma escapeHTML_no_raw (s : String) : ∀ c ∈ (escapeHTML s).data, c ∉ rawMarkupChars := by
  intro c hc
  have hdata : (escapeHTML s).data = s.data.flatMap escChar := rfl
  rw [hdata, List.mem_flatMap] at hc
  obtain ⟨a, _, hca⟩ := hc
  exact escChar_no_raw a c hca

lemma escChar_eq_ampEscChar_of_no_raw (a : Char) (h : a ∉ rawMarkupChars) :
    escChar a = ampEscChar a := by
  by_cases ha : a = '&'
  · subst ha; rfl
  · simp only [rawMarkupChars] at h
    simp only [List.mem_cons, List.mem_singleton, not_or] at h
    obtain ⟨h1, h2, h3, h4⟩ := h
    simp [escChar, ampEscChar, ha, h1, h2, h3, h4]

lemma flatMap_congr_of_mem {l : List Char} {f g : Char → List Char}
    (h : ∀ a ∈ l, f a = g a) : l.flatMap f = l.flatMap g := by
  induction l with
  | nil => rfl
  | cons a l ih =>
      simp only [List.flatMap_cons]
      rw [h a (List.mem_cons_self a l), ih fun b hb => h b (List.mem_cons_of_mem a hb)]

/-- `toggleTheme`'s view of the browser state: whether the `dark-mode` class is
present on the root element, and what (if anything) `localStorage` holds under
the key `"theme"`. -/
structure ThemeState where
  darkMode : Bool
  stored : Option String
deriving DecidableEq, Repr

/-- `toggleTheme` from `script.js` lines 10-15: toggle the `dark-mode` class,
then persist `"dark"` or `"light"` according to whether the class is now
present. -/
def toggleTheme (s : ThemeState) : ThemeState :=
  let dark := !s.darkMode
  { darkMode := dark, stored := some (if dark then "dark" else "light") }

/-- JavaScript `a || b` on a possibly-absent string value: the fallback is
used when the field is absent (`undefined`) or the empty string (falsy). -/
def jsOr (v : Option String) (fallback : String) : String :=
  match v with
  | none => fallback
  | some s => if s = "" then fallback else s

/-- The whitespace characters recognised by JavaScript `String.prototype.trim`
(ASCII whitespace, no-break space, BOM and the line/paragraph separators). -/
def jsWhitespaceChars : List Char :=
  [' ', '\t', '\n', '\r', '\x0b', '\x0c',
   Char.ofNat 0xa0, Char.ofNat 0xfeff, Char.ofNat 0x2028, Char.ofNat 0x2029]

/-- Whether `trim` removes this character. -/
def jsIsWhitespaceChar (c : Char) : Bool :=
  jsWhitespaceChars.contains c

/-- JavaScript `String.prototype.trim`: drop whitespace from both ends. -/
def jsTrim (s : String) : String :=
  ⟨(((s.data.dropWhile jsIsWhitespaceChar).reverse.dropWhile jsIsWhitespaceChar).reverse)⟩

/-- The result of one `fetch` call as a handler observes it: either the fetch
promise rejects (network failure, with the engine's error message), or a
response arrives carrying `response.ok` (2xx status), `response.statusText`,
and the result of reading the body as JSON — `.error msg` when
`response.json()` rejects (invalid JSON), `.ok` of the parsed value otherwise. -/
inductive FetchOutcome (β : Type) where
  | netError (msg : String)
  | resp (ok : Bool) (statusText : String) (body : Except String β)

/-- A customer record as consumed from `/api/customers`.  `id` is the value
interpolated by `${cust.id}` (already stringified); the four text fields are
absent when the JSON lacks them. -/
structure Customer where
  id : String
  name : Option String
  email : Option String
  phone : Option String
  company : Option String
deriving DecidableEq, Repr

/-- The JSON body of `/api/customers` as the code discriminates it:
`Array.isArray` fails, or an array of customers. -/
inductive CustomersJson where
  | notArray
  | arr (customers : List Customer)
deriving DecidableEq

/- Fixed literal segments of the row template in `loadCustomers`
(`script.js` lines 214-223); the concatenation below reproduces the template
literal character for character, split at the interpolation points. -/

/-- Newline plus the 20-space indentation before each `<td>` of the template. -/
def rowIndent : String := "\n                    "

/-- Newline plus the 24-space indentation before each button of the template. -/
def btnIndent : String := "\n                        "

/-- Opening tag of the Edit button, up to its `data-id` attribute. -/
def editBtnOpen : String := "<button class=\"btn btn-secondary btn-sm action-btn edit-btn\" "

/-- Opening tag of the Delete button, up to its `data-id` attribute. -/
def delBtnOpen : String := "<button class=\"btn btn-danger btn-sm action-btn delete-btn\" "

/-- The `data-id="${cust.id}"` attribute: the id is interpolated verbatim. -/
def dataIdAttr (id : String) : String := "data-id=\"" ++ id ++ "\""

/-- One `<tr>`'s `innerHTML` as built by `loadCustomers` for a customer:
`escapeHTML` is applied to name, email, phone and company (name and email via
the `str = ''` default for an absent field, phone and company via `|| ''`),
while `cust.id` is interpolated into the two `data-id` attributes verbatim. -/
def customerRowHTML (cust : Customer) : String :=
  rowIndent ++ "<td>" ++ escapeHTML (cust.name.getD "") ++ "</td>" ++
  rowIndent ++ "<td>" ++ escapeHTML (cust.email.getD "") ++ "</td>" ++
  rowIndent ++ "<td>" ++ escapeHTML (jsOr cust.phone "") ++ "</td>" ++
  rowIndent ++ "<td>" ++ escapeHTML (jsOr cust.company "") ++ "</td>" ++
  rowIndent ++ "<td>" ++
  btnIndent ++ editBtnOpen ++ dataIdAttr cust.id ++ ">Edit</button>" ++
  btnIndent ++ delBtnOpen ++ dataIdAttr cust.id ++ ">Delete</button>" ++
  rowIndent ++ "</td>\n                "

/-- What the customers table body holds after a render: one data row per
customer, or the single placeholder row, or the single error row. -/
inductive CustomerRow where
  | entry (c : Customer)
  | noCustomers
  | loadError
deriving DecidableEq

/-- `loadCustomers` from `script.js` lines 200-230, as the table contents it
leaves behind.  Failure to fetch (rejection), a non-2xx status (the explicit
`throw`) and an unparseable body all land in the `catch`, which renders the
single error row; a 2xx non-array or empty-array body renders the single
placeholder row; a non-empty array renders one row per customer via
`forEach`.  The whole body is inside `try`, so the handler always completes
normally (`Except.ok`). -/
def loadCustomers (o : FetchOutcome CustomersJson) : Except String (List CustomerRow) :=
  .ok (match o with
    | .netError _ => [.loadError]
    | .resp false _ _ => [.loadError]
    | .resp true _ (.error _) => [.loadError]
    | .resp true _ (.ok .notArray) => [.noCustomers]
    | .resp true _ (.ok (.arr cs)) =>
        if cs.isEmpty then [.noCustomers] else cs.map .entry)

/-- The two dashboard slots `fetchCustomerKPIs` writes; `none` models an
absent element (the `if (element)` guards), `some t` an element showing `t`. -/
structure DashboardKpiSlots where
  totalCustomers : Option String
  newCustomers30d : Option String
deriving DecidableEq, Repr

/-- The fields of the `/api/customer-kpis` JSON body that the code reads. -/
structure CustomerKpisJson where
  total_customers : Option Int
  new_customers_last_30_days : Option Int
deriving DecidableEq

/-- `fetchCustomerKPIs` from `script.js` lines 68-89.  On success both slots
receive their field (`?? 0` for an absent one); on any caught failure (fetch
rejection, the `throw` on a non-2xx status, or a body parse failure) only the
new-customers slot is overwritten, with the literal `"Error"`. -/
def fetchCustomerKPIs (slots : DashboardKpiSlots) (o : FetchOutcome CustomerKpisJson) :
    Except String DashboardKpiSlots :=
  .ok (match o with
    | .netError _ =>
        { slots with newCustomers30d := slots.newCustomers30d.map fun _ => "Error" }
    | .resp false _ _ =>
        { slots with newCustomers30d := slots.newCustomers30d.map fun _ => "Error" }
    | .resp true _ (.error _) =>
        { slots with newCustomers30d := slots.newCustomers30d.map fun _ => "Error" }
    | .resp true _ (.ok data) =>
        { totalCustomers := slots.totalCustomers.map fun _ =>
            toString (data.total_customers.getD 0),
          newCustomers30d := slots.newCustomers30d.map fun _ =>
            toString (data.new_customers_last_30_days.getD 0) })

/-- A ticket as consumed from `/api/tickets`; every field may be absent. -/
structure Ticket where
  customer_id : Option String
  issue : Option String
  priority : Option String
  status : Option String
deriving DecidableEq, Repr

/-- The JSON body of `/api/tickets` as the code discriminates it. -/
inductive TicketsJson where
  | notArray
  | arr (tickets : List Ticket)
deriving DecidableEq

/-- `fetchOpenTickets` from `script.js` lines 91-105.  On success the slot
receives the count of tickets whose `status === 'Open'`, where a non-array
body counts as `0` (the `Array.isArray` guard); every caught failure writes
`"Error"`. -/
def fetchOpenTickets (slot : Option String) (o : FetchOutcome TicketsJson) :
    Except String (Option String) :=
  .ok (match o with
    | .netError _ => slot.map fun _ => "Error"
    | .resp false _ _ => slot.map fun _ => "Error"
    | .resp true _ (.error _) => slot.map fun _ => "Error"
    | .resp true _ (.ok body) =>
        let openTickets : Nat :=
          match body with
          | .notArray => 0
          | .arr ts => (ts.filter fun t => t.status == some "Open").length
        slot.map fun _ => toString openTickets)

/-- The fields of the `/api/ticket-metrics` JSON body that the code reads.
`avg_resolution_hours` is `none` when the field is absent (or not a number, in
which case `.toFixed` is likewise unavailable and throws). -/
structure TicketMetricsJson where
  avg_resolution_hours : Option ℚ
  trend_labels : List String
  trend_values : List ℚ
deriving DecidableEq

/-- JavaScript `Number.prototype.toFixed(1)`: round to the nearest tenth,
ties away from zero, and print with exactly one decimal digit. -/
def toFixed1 (q : ℚ) : String :=
  let n : Int := ⌊q * 10 + 1 / 2⌋
  let sign := if n < 0 then "-" else ""
  sign ++ toString (n.natAbs / 10) ++ "." ++ toString (n.natAbs % 10)

/-- What the chart sink received.  The charting library is an external
collaborator; its rendering is opaque, so the model only records the series
handed to `renderResolutionChart` (which is a no-op when the canvas element is
absent). -/
inductive ChartEffect where
  | none
  | rendered (labels : List String) (values : List ℚ)
deriving DecidableEq

/-- `renderResolutionChart` from `script.js` lines 114-142, reduced to its
observable effect on the opaque chart sink. -/
def renderResolutionChart (canvasPresent : Bool) (labels : List String) (values : List ℚ) :
    ChartEffect :=
  if canvasPresent then .rendered labels values else .none

/-- `fetchTicketMetrics` from `script.js` lines 145-162.  Note there is no
`response.ok` check: any response whose body parses participates in the
success path.  When the slot element is present, the template
`${data.avg_resolution_hours.toFixed(1)} hrs` is evaluated: with the field
absent the member access throws, the `catch` runs, and the slot gets `"Err"`
(the chart is then never rendered).  When the element is absent the guarded
assignment is skipped entirely and the chart is still rendered.  Fetch
rejection and body parse failure also land in the `catch`. -/
def fetchTicketMetrics (slot : Option String) (canvasPresent : Bool)
    (o : FetchOutcome TicketMetricsJson) : Except String (Option String × ChartEffect) :=
  .ok (match o with
    | .netError _ => (slot.map fun _ => "Err", .none)
    | .resp _ _ (.error _) => (slot.map fun _ => "Err", .none)
    | .resp _ _ (.ok data) =>
        match slot with
        | Option.none =>
            (Option.none, renderResolutionChart canvasPresent data.trend_labels data.trend_values)
        | some _ =>
            match data.avg_resolution_hours with
            | Option.none => (some "Err", .none)
            | some q =>
                (some (toFixed1 q ++ " hrs"),
                 renderResolutionChart canvasPresent data.trend_labels data.trend_values))

/-- A JSON error payload: the `.error` field servers attach to failures. -/
structure ErrorJson where
  error : Option String
deriving DecidableEq

/-- Observable result of the customer create/update form submit handler. -/
inductive CustomerFormEffect where
  | saved (updated : Bool)
  | errorAlert (msg : String)
  | genericErrorAlert
deriving DecidableEq

/-- The `customer-form` submit handler from `script.js` lines 232-268.
`customerId` is the hidden id field (empty means create/POST, non-empty means
update/PUT).  Success alerts, resets, closes the modal and reloads; a non-2xx
response alerts `Error: ${errorData.error || resp.statusText}`; a rejection or
a parse failure of the error body lands in the `catch`, which alerts a generic
message.  The whole fetch sequence is inside `try`. -/
def customerFormSubmit (customerId : String) (o : FetchOutcome ErrorJson) :
    Except String CustomerFormEffect :=
  .ok (match o with
    | .netError _ => .genericErrorAlert
    | .resp true _ _ => .saved (customerId != "")
    | .resp false _ (.error _) => .genericErrorAlert
    | .resp false st (.ok d) => .errorAlert ("Error: " ++ jsOr d.error st))

/-- Observable result of the delete-button click handler. -/
inductive DeleteEffect where
  | cancelled
  | deleted
  | errorAlert (msg : String)
  | genericErrorAlert
deriving DecidableEq

/-- The delete branch of the table click handler, `script.js` lines 275-290.
The interactive confirmation gates the request; `alert` of
`Error: ${err.error}` stringifies an absent field as `undefined`. -/
def customerDelete (confirmed : Bool) (o : FetchOutcome ErrorJson) :
    Except String DeleteEffect :=
  .ok (if !confirmed then .cancelled
    else match o with
    | .netError _ => .genericErrorAlert
    | .resp true _ _ => .deleted
    | .resp false _ (.error _) => .genericErrorAlert
    | .resp false _ (.ok d) => .errorAlert ("Error: " ++ d.error.getD "undefined"))

/-- The fields of a `/api/customer/{id}` detail body that the code reads. -/
structure CustomerDetailJson where
  name : Option String
  email : Option String
  phone : Option String
  company : Option String
deriving DecidableEq

/-- Observable result of the edit-button click handler. -/
inductive EditEffect where
  | opened (name email phone company : String)
  | errorAlert
deriving DecidableEq

/-- The edit branch of the table click handler, `script.js` lines 292-308:
fetch the customer, populate the modal fields (`|| ''` defaults), open the
modal; any failure (rejection, the `throw` on non-2xx, parse failure) is
caught and alerts. -/
def customerEdit (o : FetchOutcome CustomerDetailJson) : Except String EditEffect :=
  .ok (match o with
    | .netError _ => .errorAlert
    | .resp false _ _ => .errorAlert
    | .resp true _ (.error _) => .errorAlert
    | .resp true _ (.ok c) =>
        .opened (jsOr c.name "") (jsOr c.email "") (jsOr c.phone "") (jsOr c.company ""))

/-- State of the ticket page's customer `<select>` after `populateCustomers`. -/
inductive SelectState where
  | absent
  | options (names : List String)
  | noCustomers
  | errorOption
deriving DecidableEq

/-- `populateCustomers` from `script.js` lines 338-360: absent select element
means an early return; otherwise fetch customers and fill the options
(`customer.name || 'Unnamed'`), with placeholder options for the empty,
non-array and failure cases. -/
def populateCustomers (selectPresent : Bool) (o : FetchOutcome CustomersJson) :
    Except String SelectState :=
  .ok (if !selectPresent then .absent
    else match o with
    | .netError _ => .errorOption
    | .resp false _ _ => .errorOption
    | .resp true _ (.error _) => .errorOption
    | .resp true _ (.ok .notArray) => .noCustomers
    | .resp true _ (.ok (.arr cs)) =>
        if cs.isEmpty then .noCustomers
        else .options (cs.map fun c => jsOr c.name "Unnamed"))

/-- One rendered line of the ticket list, with the fixed defaults substituted
for absent fields. -/
def ticketLine (t : Ticket) : String :=
  jsOr t.issue "No issue description" ++ " — Customer: " ++
  jsOr t.customer_id "Unknown customer" ++ " • Priority: " ++
  jsOr t.priority "Medium" ++ " • Status: " ++ jsOr t.status "Open"

/-- State of the `ticket-list` element after `loadTickets`. -/
inductive TicketListState where
  | items (lines : List String)
  | noTickets
  | loadError
deriving DecidableEq

/-- `loadTickets` from `script.js` lines 362-386. -/
def loadTickets (o : FetchOutcome TicketsJson) : Except String TicketListState :=
  .ok (match o with
    | .netError _ => .loadError
    | .resp false _ _ => .loadError
    | .resp true _ (.error _) => .loadError
    | .resp true _ (.ok .notArray) => .noTickets
    | .resp true _ (.ok (.arr ts)) =>
        if ts.isEmpty then .noTickets else .items (ts.map ticketLine))

/-- The form values the ticket submit handler reads; `none` models an absent
element (the `x ? x.value : fallback` guards). -/
structure TicketFormInput where
  customerSelectValue : Option String
  issueValue : Option String
  priorityValue : Option String
deriving DecidableEq, Repr

/-- The client-side validation prefix of the ticket submit handler:
either reject with a status message before any request, or proceed to the
request with the assembled payload fields. -/
inductive TicketSubmitStep where
  | rejected (statusMsg : String)
  | requested (customer_id issue priority : String)
deriving DecidableEq

/-- The validation clauses of the `ticket-form` submit handler, `script.js`
lines 391-402: an empty `customerId` rejects first, then an empty trimmed
issue rejects; otherwise the request proceeds. -/
def ticketFormValidate (inp : TicketFormInput) : TicketSubmitStep :=
  let customerId := inp.customerSelectValue.getD ""
  let issue := jsTrim (inp.issueValue.getD "")
  let priority := inp.priorityValue.getD "Medium"
  if customerId = "" then .rejected "Please select a customer."
  else if issue = "" then .rejected "Issue description is required."
  else .requested customerId issue priority

/-- The fields of the `/api/tickets` POST response body that the code reads. -/
structure TicketCreateJson where
  ticket_id : Option String
  error : Option String
deriving DecidableEq

/-- The `ticket-form` submit handler from `script.js` lines 388-422, returning
the request payload actually issued (`none` when validation rejected) together
with the final text of the status line.  The body is parsed before the `ok`
check, so a parse failure of any response is caught and reported; an absent
`ticket_id` stringifies as `undefined`. -/
def ticketFormSubmit (inp : TicketFormInput) (o : FetchOutcome TicketCreateJson) :
    Except String (Option (String × String × String) × String) :=
  .ok (match ticketFormValidate inp with
    | .rejected m => (Option.none, m)
    | .requested c i p =>
        (some (c, i, p),
         match o with
         | .netError m => "Error creating ticket: " ++ m
         | .resp _ _ (.error m) => "Error creating ticket: " ++ m
         | .resp true _ (.ok d) => "Ticket created! ID: " ++ d.ticket_id.getD "undefined"
         | .resp false _ (.ok d) =>
             "Error creating ticket: " ++ jsOr d.error "Failed to create ticket"))

/-- Observable result of the lead-capture submit handler. -/
inductive LeadEffect where
  | captured
  | errorAlert (msg : String)
deriving DecidableEq

/-- The `lead-form` submit handler from `script.js` lines 437-459.  Unlike
every other handler in the file, its body has no `try/catch`: a rejected
`fetch` propagates out of the handler, and so does a rejected
`response.json()` on the non-2xx branch.  Only those two paths produce
`Except.error` (an uncaught exception); a 2xx response alerts and resets, and
a non-2xx response with a parseable body alerts the server error or the
status text. -/
def leadFormSubmit (o : FetchOutcome ErrorJson) : Except String LeadEffect :=
  match o with
  | .netError m => .error m
  | .resp true _ _ => .ok .captured
  | .resp false _ (.error m) => .error m
  | .resp false st (.ok d) => .ok (.errorAlert ("Error capturing lead: " ++ jsOr d.error st))

/-- Whether the lead handler's failure (if any) stays inside the handler for
this outcome: false exactly when the fetch rejects or a non-2xx body fails to
parse. -/
def leadFailureCaught (o : FetchOutcome ErrorJson) : Bool :=
  match o with
  | .netError _ => false
  | .resp true _ _ => true
  | .resp false _ body => body.isOk

/-- The loyalty endpoints' response bodies as used: an opaque payload rendered
via `JSON.stringify(data, null, 2)` (recorded pretty-printed) plus the
`.error` field read on failures. -/
structure LoyaltyJson where
  pretty : String
  error : Option String
deriving DecidableEq

/-- Observable result of one of the four loyalty form handlers. -/
inductive LoyaltyEffect where
  | noop
  | output (text : String)
  | errorOutput (text : String)
deriving DecidableEq

/-- The `loyalty-profile-form` submit handler, `script.js` lines 471-489:
an empty trimmed customer id silently no-ops before any request; otherwise the
profile is fetched and pretty-printed, and every failure (rejection, error
payload, parse failure on either branch) is caught and rendered in the error
style. -/
def loyaltyProfileSubmit (customerIdRaw : String) (o : FetchOutcome LoyaltyJson) :
    Except String LoyaltyEffect :=
  .ok (if jsTrim customerIdRaw = "" then .noop
    else match o with
    | .netError m => .errorOutput m
    | .resp false _ (.error m) => .errorOutput m
    | .resp false _ (.ok d) => .errorOutput (jsOr d.error "Failed to fetch profile")
    | .resp true _ (.error m) => .errorOutput m
    | .resp true _ (.ok d) => .output d.pretty)

/-- The `loyalty-purchase-form` submit handler, `script.js` lines 492-512:
validates the trimmed customer id and the (untrimmed) amount, then posts;
the body is parsed before the `ok` check, all inside `try`. -/
def loyaltyPurchaseSubmit (customerIdRaw amountValue : String) (o : FetchOutcome LoyaltyJson) :
    Except String LoyaltyEffect :=
  .ok (if jsTrim customerIdRaw = "" ∨ amountValue = "" then .noop
    else match o with
    | .netError m => .errorOutput m
    | .resp _ _ (.error m) => .errorOutput m
    | .resp true _ (.ok d) => .output d.pretty
    | .resp false _ (.ok d) => .errorOutput (jsOr d.error "Failed to simulate purchase"))

/-- The `loyalty-redeem-form` submit handler, `script.js` lines 515-535. -/
def loyaltyRedeemSubmit (customerIdRaw points : String) (o : FetchOutcome LoyaltyJson) :
    Except String LoyaltyEffect :=
  .ok (if jsTrim customerIdRaw = "" ∨ points = "" then .noop
    else match o with
    | .netError m => .errorOutput m
    | .resp _ _ (.error m) => .errorOutput m
    | .resp true _ (.ok d) => .output d.pretty
    | .resp false _ (.ok d) => .errorOutput (jsOr d.error "Failed to redeem points"))

/-- The `loyalty-referral-form` submit handler, `script.js` lines 538-558. -/
def loyaltyReferralSubmit (customerIdRaw referralCodeRaw : String) (o : FetchOutcome LoyaltyJson) :
    Except String LoyaltyEffect :=
  .ok (if jsTrim customerIdRaw = "" ∨ jsTrim referralCodeRaw = "" then .noop
    else match o with
    | .netError m => .errorOutput m
    | .resp _ _ (.error m) => .errorOutput m
    | .resp true _ (.ok d) => .output d.pretty
    | .resp false _ (.ok d) => .errorOutput (jsOr d.error "Failed to apply referral"))

/-- The slot text the amended ticket-metrics claim predicts for each outcome:
`"Err"` when the fetch rejects, the body fails to parse, or the numeric field
is missing; the formatted value otherwise — regardless of the HTTP status,
which the handler never inspects. -/
def metricsSlotSpec (o : FetchOutcome TicketMetricsJson) : String :=
  match o with
  | .netError _ => "Err"
  | .resp _ _ (.error _) => "Err"
  | .resp _ _ (.ok d) =>
      match d.avg_resolution_hours with
      | Option.none => "Err"
      | some q => toFixed1 q ++ " hrs"

/- ======================  Claim theorems  ====================== -/

/-- C1: `escapeHTML` replaces each occurrence of the five special characters
by its entity and leaves every other character unchanged (it distributes over
concatenation, maps each special character to its entity, and fixes every
other single character), and consequently its output — the rendered text of
every escaped customer field — never contains a raw `<`, `>`, `"` or `'`. -/
theorem c1_escapeHTML_total (s t : String) :
    escapeHTML (s ++ t) = escapeHTML s ++ escapeHTML t ∧
    escapeHTML "&" = "&amp;" ∧
    escapeHTML "<" = "&lt;" ∧
    escapeHTML ">" = "&gt;" ∧
    escapeHTML "\"" = "&quot;" ∧
    escapeHTML "\x27" = "&#39;" ∧
    (∀ c : Char, c ∉ '&' :: rawMarkupChars →
      escapeHTML (String.singleton c) = String.singleton c) ∧
    (∀ c ∈ (escapeHTML s).data, c ∉ rawMarkupChars) := by
  refine ⟨?_, by decide, by decide, by decide, by decide, by decide, ?_, escapeHTML_no_raw s⟩
  · obtain ⟨ld⟩ := s
    obtain ⟨ld2⟩ := t
    exact congrArg String.mk (List.flatMap_append ld ld2 escChar)
  · intro c hc
    simp only [rawMarkupChars, List.mem_cons, List.not_mem_nil, or_false, not_or] at hc
    obtain ⟨h1, h2, h3, h4, h5⟩ := hc
    show (⟨[c].flatMap escChar⟩ : String) = ⟨[c]⟩
    simp [escChar, h1, h2, h3, h4, h5]

/-- C1 witness: the theorem applied at concrete inputs, discharging the
membership hypothesis at the character `a`. -/
theorem c1_witness : escapeHTML (String.singleton 'a') = String.singleton 'a' :=
  (c1_escapeHTML_total "x" "y").2.2.2.2.2.2.1 'a' (by decide)

/-- C2 counterexample: the lead-form submit handler has no `try/catch`, so a
rejected `fetch` terminates the handler with an uncaught exception — refuting
the claim that every operation catches its failures locally. -/
theorem c2_counterexample :
    leadFormSubmit (.netError "Failed to fetch") = .error "Failed to fetch" := rfl

/-- C2 amended: every network-request handler catches every failure locally,
except the lead-capture submit handler, which completes normally exactly when
the fetch resolves and — on a non-2xx status — the error body parses; a
rejected fetch or an unparseable non-2xx body escapes that handler uncaught. -/
theorem c2_amended :
    (∀ (slots : DashboardKpiSlots) (o : FetchOutcome CustomerKpisJson),
      (fetchCustomerKPIs slots o).isOk) ∧
    (∀ (slot : Option String) (o : FetchOutcome TicketsJson),
      (fetchOpenTickets slot o).isOk) ∧
    (∀ (slot : Option String) (cp : Bool) (o : FetchOutcome TicketMetricsJson),
      (fetchTicketMetrics slot cp o).isOk) ∧
    (∀ o : FetchOutcome CustomersJson, (loadCustomers o).isOk) ∧
    (∀ (cid : String) (o : FetchOutcome ErrorJson), (customerFormSubmit cid o).isOk) ∧
    (∀ (c : Bool) (o : FetchOutcome ErrorJson), (customerDelete c o).isOk) ∧
    (∀ o : FetchOutcome CustomerDetailJson, (customerEdit o).isOk) ∧
    (∀ (p : Bool) (o : FetchOutcome CustomersJson), (populateCustomers p o).isOk) ∧
    (∀ o : FetchOutcome TicketsJson, (loadTickets o).isOk) ∧
    (∀ (inp : TicketFormInput) (o : FetchOutcome TicketCreateJson),
      (ticketFormSubmit inp o).isOk) ∧
    (∀ (c : String) (o : FetchOutcome LoyaltyJson), (loyaltyProfileSubmit c o).isOk) ∧
    (∀ (c a : String) (o : FetchOutcome LoyaltyJson), (loyaltyPurchaseSubmit c a o).isOk) ∧
    (∀ (c a : String) (o : FetchOutcome LoyaltyJson), (loyaltyRedeemSubmit c a o).isOk) ∧
    (∀ (c a : String) (o : FetchOutcome LoyaltyJson), (loyaltyReferralSubmit c a o).isOk) ∧
    (∀ o : FetchOutcome ErrorJson, (leadFormSubmit o).isOk = leadFailureCaught o) := by
  refine ⟨fun _ _ => rfl, fun _ _ => rfl, fun _ _ _ => rfl, fun _ => rfl, fun _ _ => rfl,
    fun _ _ => rfl, fun _ => rfl, fun _ _ => rfl, fun _ => rfl, fun _ _ => rfl,
    fun _ _ => rfl, fun _ _ _ => rfl, fun _ _ _ => rfl, fun _ _ _ => rfl, ?_⟩
  intro o
  rcases o with m | ⟨ok, st, body⟩
  · rfl
  · cases ok <;> cases body <;> rfl

/-- C3 counterexample: the entity `&lt;` produced by the first application is
not left unchanged by the second — its ampersand is re-escaped, so
`escapeHTML` applied twice differs from applying it once. -/
theorem c3_counterexample :
    escapeHTML (escapeHTML "<") ≠ escapeHTML "<" ∧
    escapeHTML (escapeHTML "<") = "&amp;lt;" :=
  ⟨by decide, by decide⟩

/-- C3 amended: a second application of `escapeHTML` to an already-escaped
string re-escapes exactly the ampersands (including the one opening each
entity) and changes nothing else: `escapeHTML` is not idempotent, and
`escapeHTML (escapeHTML x)` equals `escapeHTML x` with each `&` replaced by
`&amp;`. -/
theorem c3_amended (x : String) :
    escapeHTML (escapeHTML x) = ampEscape (escapeHTML x) :=
  congrArg String.mk
    (flatMap_congr_of_mem fun a ha =>
      escChar_eq_ampEscChar_of_no_raw a (escapeHTML_no_raw x a ha))

/-- C4 counterexample: starting from light mode with `"dark"` stored (a state
where storage disagrees with the display mode), two toggles end with
`"light"` stored — the originally-stored value is not restored. -/
theorem c4_counterexample :
    toggleTheme (toggleTheme ⟨false, some "dark"⟩) ≠ ⟨false, some "dark"⟩ := by
  decide

/-- C4 amended: two consecutive toggles always restore the display mode, and
leave the stored value equal to the one matching that mode (`"dark"` iff dark
mode is set); hence the originally-stored value is restored exactly when it
already matched the display mode. -/
theorem c4_amended (s : ThemeState) :
    (toggleTheme (toggleTheme s)).darkMode = s.darkMode ∧
    (toggleTheme (toggleTheme s)).stored = some (if s.darkMode then "dark" else "light") ∧
    (s.stored = some (if s.darkMode then "dark" else "light") →
      toggleTheme (toggleTheme s) = s) := by
  obtain ⟨d, st⟩ := s
  refine ⟨?_, ?_, ?_⟩
  · cases d <;> rfl
  · cases d <;> rfl
  · intro h
    cases d <;> simp_all [toggleTheme]

/-- C4 witness: the amended theorem applied at a consistent concrete state. -/
theorem c4_witness : toggleTheme (toggleTheme ⟨true, some "dark"⟩) = ⟨true, some "dark"⟩ :=
  (c4_amended ⟨true, some "dark"⟩).2.2 (by decide)

/-- C5 counterexample: the handler never checks `response.ok`, so a non-2xx
response whose body parses and carries a numeric `avg_resolution_hours` sets
the slot to the formatted value, not to `"Err"`. -/
theorem c5_counterexample :
    (fetchTicketMetrics (some "Loading...") false
        (.resp false "Internal Server Error" (.ok ⟨some 5, [], []⟩))).map Prod.fst =
      .ok (some "5.0 hrs") ∧
    ("5.0 hrs" : String) ≠ "Err" := by
  refine ⟨?_, by decide⟩
  have h50 : (⌊(5 : ℚ) * 10 + 1 / 2⌋ : ℤ) = 50 := by
    rw [Int.floor_eq_iff]
    norm_num
  have htf : toFixed1 5 = "5.0" := by
    simp only [toFixed1]
    rw [h50]
    decide
  have hs : ("5.0" ++ " hrs" : String) = "5.0 hrs" := by decide
  show Except.ok (some (toFixed1 5 ++ " hrs")) = Except.ok (some "5.0 hrs")
  rw [htf, hs]

/-- C5 amended: when the avg-resolution element is present, its text becomes
`"Err"` exactly when the fetch rejects, the body fails to parse, or
`avg_resolution_hours` is missing (so `.toFixed` throws); any outcome with a
parseable body carrying a numeric field — whatever the HTTP status, which the
handler never inspects — yields the value formatted to one decimal place with
the `" hrs"` suffix. -/
theorem c5_amended (slotText : String) (canvasPresent : Bool)
    (o : FetchOutcome TicketMetricsJson) :
    (fetchTicketMetrics (some slotText) canvasPresent o).map Prod.fst =
      .ok (some (metricsSlotSpec o)) := by
  rcases o with m | ⟨ok, st, body⟩
  · rfl
  · rcases body with m | d
    · rfl
    · obtain ⟨avg, tl, tv⟩ := d
      cases avg <;> rfl

/-- C6: on any failed customer-KPI request — fetch rejection or non-2xx
status — the total-customers slot keeps its previous content and the
new-customers slot (when present) is set to the literal `"Error"`. -/
theorem c6_kpi_failure_frame (slots : DashboardKpiSlots) (msg st : String)
    (b : Except String CustomerKpisJson) :
    fetchCustomerKPIs slots (.netError msg) =
      .ok ⟨slots.totalCustomers, slots.newCustomers30d.map fun _ => "Error"⟩ ∧
    fetchCustomerKPIs slots (.resp false st b) =
      .ok ⟨slots.totalCustomers, slots.newCustomers30d.map fun _ => "Error"⟩ :=
  ⟨rfl, rfl⟩

/-- C7: the customer list render is a full replacement producing exactly one
row per customer, in list order, for a non-empty returned list; exactly the
one placeholder row for an empty list; and exactly the one error row when the
fetch rejects, the status is non-2xx, or the body fails to parse. -/
theorem c7_render_rows (cs : List Customer) (h : cs ≠ [])
    (st m : String) (b : Except String CustomersJson) :
    loadCustomers (.resp true st (.ok (.arr cs))) = .ok (cs.map CustomerRow.entry) ∧
    loadCustomers (.resp true st (.ok (.arr []))) = .ok [CustomerRow.noCustomers] ∧
    loadCustomers (.netError m) = .ok [CustomerRow.loadError] ∧
    loadCustomers (.resp false st b) = .ok [CustomerRow.loadError] ∧
    loadCustomers (.resp true st (.error m)) = .ok [CustomerRow.loadError] := by
  have hne : cs.isEmpty = false := by
    cases cs with
    | nil => cases h rfl
    | cons a l => rfl
  refine ⟨?_, rfl, rfl, rfl, rfl⟩
  simp [loadCustomers, hne]

/-- C7 witness: the theorem applied to a concrete one-customer list. -/
theorem c7_witness :
    loadCustomers (.resp true "OK"
        (.ok (.arr [⟨"1", some "Ann", some "ann@example.com", none, none⟩]))) =
      .ok [CustomerRow.entry ⟨"1", some "Ann", some "ann@example.com", none, none⟩] :=
  (c7_render_rows [⟨"1", some "Ann", some "ann@example.com", none, none⟩]
    (by decide) "OK" "m" (.ok .notArray)).1

/-- C8 counterexample: submitting with a whitespace-only issue while no
customer is selected issues no request but sets the status to the
select-a-customer message, not the required-field warning. -/
theorem c8_counterexample :
    ticketFormSubmit ⟨some "", some " ", some "Medium"⟩ (.netError "x") =
      .ok (none, "Please select a customer.") ∧
    ("Please select a customer." : String) ≠ "Issue description is required." :=
  ⟨rfl, by decide⟩

/-- C8 amended: an empty or whitespace-only issue never lets a request go out
(the payload component is `none`); the status line shows the required-field
warning when a customer is selected, and the select-a-customer message
otherwise (that guard fires first). -/
theorem c8_amended (inp : TicketFormInput) (o : FetchOutcome TicketCreateJson)
    (h : jsTrim (inp.issueValue.getD "") = "") :
    ticketFormSubmit inp o =
      .ok (none,
        if inp.customerSelectValue.getD "" = "" then "Please select a customer."
        else "Issue description is required.") := by
  unfold ticketFormSubmit ticketFormValidate
  by_cases hc : inp.customerSelectValue.getD "" = ""
  · simp [hc, h]
  · simp [hc, h]

/-- C8 witness: the amended theorem applied at a concrete whitespace-only
submission with a customer selected. -/
theorem c8_witness :
    ticketFormSubmit ⟨some "c1", some "   ", some "High"⟩ (.netError "x") =
      .ok (none, "Issue description is required.") := by
  have h := c8_amended ⟨some "c1", some "   ", some "High"⟩ (.netError "x") (by decide)
  simpa using h

lemma isInfix_of_append_eq (a m b s : String) (h : s = a ++ m ++ b) :
    List.IsInfix m.data s.data := by
  refine ⟨a.data, b.data, ?_⟩
  rw [h, String.data_append, String.data_append]

/-- C9: the row markup inserts the customer's id verbatim into the `data-id`
attribute — unescaped, so the substring `data-id="<id>"` occurs literally —
while each of the four text fields is inserted in its `escapeHTML`-escaped
form inside its cell. -/
theorem c9_id_verbatim (cust : Customer) :
    List.IsInfix ("data-id=\"" ++ cust.id ++ "\"").data (customerRowHTML cust).data ∧
    List.IsInfix ("<td>" ++ escapeHTML (cust.name.getD "") ++ "</td>").data
      (customerRowHTML cust).data ∧
    List.IsInfix ("<td>" ++ escapeHTML (cust.email.getD "") ++ "</td>").data
      (customerRowHTML cust).data ∧
    List.IsInfix ("<td>" ++ escapeHTML (jsOr cust.phone "") ++ "</td>").data
      (customerRowHTML cust).data ∧
    List.IsInfix ("<td>" ++ escapeHTML (jsOr cust.company "") ++ "</td>").data
      (customerRowHTML cust).data := by
  refine ⟨?_, ?_, ?_, ?_, ?_⟩
  · exact isInfix_of_append_eq
      (rowIndent ++ "<td>" ++ escapeHTML (cust.name.getD "") ++ "</td>" ++
        rowIndent ++ "<td>" ++ escapeHTML (cust.email.getD "") ++ "</td>" ++
        rowIndent ++ "<td>" ++ escapeHTML (jsOr cust.phone "") ++ "</td>" ++
        rowIndent ++ "<td>" ++ escapeHTML (jsOr cust.company "") ++ "</td>" ++
        rowIndent ++ "<td>" ++ btnIndent ++ editBtnOpen)
      ("data-id=\"" ++ cust.id ++ "\"")
      (">Edit</button>" ++ btnIndent ++ delBtnOpen ++ dataIdAttr cust.id ++
        ">Delete</button>" ++ rowIndent ++ "</td>\n                ")
      (customerRowHTML cust)
      (by simp only [customerRowHTML, dataIdAttr, String.append_assoc])
  · exact isInfix_of_append_eq
      rowIndent
      ("<td>" ++ escapeHTML (cust.name.getD "") ++ "</td>")
      (rowIndent ++ "<td>" ++ escapeHTML (cust.email.getD "") ++ "</td>" ++
        rowIndent ++ "<td>" ++ escapeHTML (jsOr cust.phone "") ++ "</td>" ++
        rowIndent ++ "<td>" ++ escapeHTML (jsOr cust.company "") ++ "</td>" ++
        rowIndent ++ "<td>" ++ btnIndent ++ editBtnOpen ++ dataIdAttr cust.id ++
        ">Edit</button>" ++ btnIndent ++ delBtnOpen ++ dataIdAttr cust.id ++
        ">Delete</button>" ++ rowIndent ++ "</td>\n                ")
      (customerRowHTML cust)
      (by simp only [customerRowHTML, String.append_assoc])
  · exact isInfix_of_append_eq
      (rowIndent ++ "<td>" ++ escapeHTML (cust.name.getD "") ++ "</td>" ++ rowIndent)
      ("<td>" ++ escapeHTML (cust.email.getD "") ++ "</td>")
      (rowIndent ++ "<td>" ++ escapeHTML (jsOr cust.phone "") ++ "</td>" ++
        rowIndent ++ "<td>" ++ escapeHTML (jsOr cust.company "") ++ "</td>" ++
        rowIndent ++ "<td>" ++ btnIndent ++ editBtnOpen ++ dataIdAttr cust.id ++
        ">Edit</button>" ++ btnIndent ++ delBtnOpen ++ dataIdAttr cust.id ++
        ">Delete</button>" ++ rowIndent ++ "</td>\n                ")
      (customerRowHTML cust)
      (by simp only [customerRowHTML, String.append_assoc])
  · exact isInfix_of_append_eq
      (rowIndent ++ "<td>" ++ escapeHTML (cust.name.getD "") ++ "</td>" ++
        rowIndent ++ "<td>" ++ escapeHTML (cust.email.getD "") ++ "</td>" ++ rowIndent)
      ("<td>" ++ escapeHTML (jsOr cust.phone "") ++ "</td>")
      (rowIndent ++ "<td>" ++ escapeHTML (jsOr cust.company "") ++ "</td>" ++
        rowIndent ++ "<td>" ++ btnIndent ++ editBtnOpen ++ dataIdAttr cust.id ++
        ">Edit</button>" ++ btnIndent ++ delBtnOpen ++ dataIdAttr cust.id ++
        ">Delete</button>" ++ rowIndent ++ "</td>\n                ")
      (customerRowHTML cust)
      (by simp only [customerRowHTML, String.append_assoc])
  · exact isInfix_of_append_eq
      (rowIndent ++ "<td>" ++ escapeHTML (cust.name.getD "") ++ "</td>" ++
        rowIndent ++ "<td>" ++ escapeHTML (cust.email.getD "") ++ "</td>" ++
        rowIndent ++ "<td>" ++ escapeHTML (jsOr cust.phone "") ++ "</td>" ++ rowIndent)
      ("<td>" ++ escapeHTML (jsOr cust.company "") ++ "</td>")
      (rowIndent ++ "<td>" ++ btnIndent ++ editBtnOpen ++ dataIdAttr cust.id ++
        ">Edit</button>" ++ btnIndent ++ delBtnOpen ++ dataIdAttr cust.id ++
        ">Delete</button>" ++ rowIndent ++ "</td>\n                ")
      (customerRowHTML cust)
      (by simp only [customerRowHTML, String.append_assoc])

/-- C10: a 2xx `/api/tickets` response whose JSON body is not an array makes
the open-tickets fetcher write the count `"0"` (the `Array.isArray` guard):
it neither throws nor writes `"Error"`. -/
theorem c10_nonarray_zero (slotText st : String) :
    fetchOpenTickets (some slotText) (.resp true st (.ok .notArray)) = .ok (some "0") ∧
    ("0" : String) ≠ "Error" :=
  ⟨rfl, by decide⟩

end CRM
